import Mathlib

/-!
Shallow embedding of the two learning-update components of the `coax`
repository:

* `coax/policy_objectives/_ppo_clip.py` — the PPO-clip policy objective
  (`PPOClip`), and
* `coax/td_learning/_qlearning.py` — the n-step Q-learning TD objective
  (`QLearning`).

Arrays are embedded as `List ℚ` (rank-1) and `List (List ℚ)` (rank-2);
elementwise numpy operations become `List.zipWith` / `List.map`.  The
function approximators (policy / q-function), the policy regularizer and
the transcendental primitive `jnp.exp` are external collaborators of this
code; they are embedded as structure fields and explicit function
arguments, universally quantified in the theorems.  `hk.PRNGSequence(rng)`
is embedded as the deterministic key stream `prngKey rng 0, prngKey rng 1, …`,
which preserves exactly what the source relies on: the i-th draw from the
same seed is the same key.
-/

namespace Coax

/-- `jnp.clip(x, lo, hi)`: numpy clip semantics, `min (max x lo) hi`. -/
def clip (x lo hi : ℚ) : ℚ := min (max x lo) hi

/-- `jnp.mean` of a rank-1 array.  (On the empty list this yields `0/0 = 0`
in `ℚ`; the source never takes the mean of an empty batch.) -/
def mean (l : List ℚ) : ℚ := l.sum / (l.length : ℚ)

/-- `jnp.max` of a rank-1 array (one row of `Q_s_next`); the source only
applies it to non-empty rows (a discrete action space has at least one
action), so the `[]` default is never reached there. -/
def amax : List ℚ → ℚ
  | [] => 0
  | x :: xs => xs.foldl max x

/-- The i-th key drawn from `hk.PRNGSequence(rng)`: a deterministic,
injective function of the seed and the draw index. -/
def prngKey (rng i : ℕ) : ℕ := Nat.pair rng i

/-- Elementwise combination of three arrays (numpy broadcasting of
`f(Rn + In * f_inv(Q_sa_next))` over three rank-1 arrays of equal batch
size). -/
def zipWith3 {α β γ δ : Type} (f : α → β → γ → δ) : List α → List β → List γ → List δ
  | a :: as, b :: bs, c :: cs => f a b c :: zipWith3 f as bs cs
  | _, _, _ => []

/-- The `TransitionBatch` record: an arity-8 tuple-like record
`(S, A, logP, Rn, In, S_next, …)`; the q-learning code destructures all
eight fields and the PPO code takes the first three.  The last two fields
are ignored by both components, so their type is left abstract. -/
structure TransitionBatch (Obs Act Ext : Type) where
  S : List Obs
  A : List Act
  logP : List ℚ
  Rn : List ℚ
  In : List ℚ
  S_next : List Obs
  A_next : Ext
  logP_next : Ext

/-! ### Q-learning (`coax/td_learning/_qlearning.py`) -/

/-- The q-function collaborator (`coax.Q`): exposes a discreteness flag, a
type-2 evaluation `(params, state, rng, S, is_training) ↦` one value per
action per state (rank-2), and a type-1 evaluation
`(params, state, rng, S, A, is_training) ↦` one value per transition. -/
structure QFunc (P St Obs Act : Type) where
  action_space_is_discrete : Bool
  apply_func_type2 : P → St → ℕ → List Obs → Bool → List (List ℚ) × St
  apply_func_type1 : P → St → ℕ → List Obs → List Act → Bool → List ℚ × St

/-- The `QLearning` object after construction: the main q-function `q`, the
target q-function `q_targ`, the regression loss and the value-transform
pair `(f, f⁻¹)`, as stored by `BaseTD.__init__`. -/
structure QLearning (P St Obs Act : Type) where
  q : QFunc P St Obs Act
  q_targ : QFunc P St Obs Act
  loss_function : List ℚ → List ℚ → ℚ
  value_transform : (ℚ → ℚ) × (ℚ → ℚ)

/-- Modelled from the spec: the default regression loss of the q-learning
component is the Huber loss from the external `coax.value_losses` module
(not part of the two source files); only its existence matters here — the
discreteness check of `QLearning.__init__` never inspects it. -/
def huber (y_true y_pred : List ℚ) : ℚ :=
  mean (List.zipWith
    (fun t p => if |t - p| ≤ 1 then (t - p) ^ 2 / 2 else |t - p| - 1 / 2) y_true y_pred)

/-- `QLearning.__init__(q, q_targ=None, loss_function=None, value_transform=None)`:
raises `NotImplementedError` when the action space is not discrete, before
anything else happens; otherwise stores the configuration, defaulting
`q_targ` to `q`.  (The defaults `loss_function = huber` and
`value_transform = identity pair` are modelled from the spec: they are set
by `BaseTD.__init__`, which is outside the two source files.)  Note the
constructor receives no transition batch: failure or success is decided
from the configuration alone. -/
def QLearning.init {P St Obs Act : Type} (q : QFunc P St Obs Act)
    (q_targ : Option (QFunc P St Obs Act))
    (loss_function : Option (List ℚ → List ℚ → ℚ))
    (value_transform : Option ((ℚ → ℚ) × (ℚ → ℚ))) :
    Except String (QLearning P St Obs Act) :=
  if ¬ q.action_space_is_discrete then
    Except.error
      "NotImplementedError: QLearning class is only implemented for discrete actions spaces"
  else
    Except.ok
      { q := q
        q_targ := q_targ.getD q
        loss_function := loss_function.getD huber
        value_transform := value_transform.getD (id, id) }

/-- `target(params, state, rng, Rn, In, S_next)`: evaluate the target
network at `S_next` in non-training mode, take the per-row max over
actions, and return `f (Rn + In * f_inv Q_sa_next)` elementwise. -/
def QLearning.target {P St Obs Act : Type} (self : QLearning P St Obs Act)
    (params : P) (state : St) (rng : ℕ) (Rn In : List ℚ) (S_next : List Obs) : List ℚ :=
  let f := self.value_transform.1
  let f_inv := self.value_transform.2
  let Q_s_next := (self.q_targ.apply_func_type2 params state rng S_next false).1
  let Q_sa_next := Q_s_next.map amax
  zipWith3 (fun rn i q => f (rn + i * f_inv q)) Rn In Q_sa_next

/-- `loss_func(params, target_params, state, rng, transition_batch)`: the
target `G` uses the first PRNG draw, the training-mode evaluation of the
main q-function uses the second; returns `(loss, (loss, G, Q, S, A, state_new))`. -/
def QLearning.loss_func {P St Obs Act Ext : Type} (self : QLearning P St Obs Act)
    (params target_params : P) (state : St) (rng : ℕ)
    (transition_batch : TransitionBatch Obs Act Ext) :
    ℚ × (ℚ × List ℚ × List ℚ × List Obs × List Act × St) :=
  let G := self.target target_params state (prngKey rng 0)
    transition_batch.Rn transition_batch.In transition_batch.S_next
  let QS := self.q.apply_func_type1 params state (prngKey rng 1)
    transition_batch.S transition_batch.A true
  let loss := self.loss_function G QS.1
  (loss, (loss, G, QS.1, transition_batch.S, transition_batch.A, QS.2))

/-- `td_error_func(params, target_params, state, rng, transition_batch)`:
the same target construction with the same first PRNG draw, the main
q-function evaluated with the second draw but in non-training mode; returns
`G - Q` elementwise. -/
def QLearning.td_error_func {P St Obs Act Ext : Type} (self : QLearning P St Obs Act)
    (params target_params : P) (state : St) (rng : ℕ)
    (transition_batch : TransitionBatch Obs Act Ext) : List ℚ :=
  let G := self.target target_params state (prngKey rng 0)
    transition_batch.Rn transition_batch.In transition_batch.S_next
  let QS := self.q.apply_func_type1 params state (prngKey rng 1)
    transition_batch.S transition_batch.A false
  List.zipWith (fun g q => g - q) G QS.1

/-! ### PPO-clip (`coax/policy_objectives/_ppo_clip.py`) -/

/-- The policy collaborator (`coax.Policy`): a training/evaluation forward
pass yielding distribution parameters and new internal state, an action
preprocessor, and the distribution family log-probability over a batch. -/
structure Policy (P St DP Obs Act XA : Type) where
  apply_func : P → St → ℕ → List Obs → Bool → DP × St
  action_preprocessor_func : P → ℕ → List Act → List XA
  log_proba : DP → List XA → List ℚ

/-- The optional policy-regularizer collaborator: a per-transition penalty
array from distribution parameters and its own hyperparameters. -/
structure PolicyRegularizer (DP RH : Type) where
  apply_func : DP → RH → List ℚ

/-- The `PPOClip` object after construction: the policy, the optional
regularizer and the clip radius `epsilon`. -/
structure PPOClip (P St DP Obs Act XA RH : Type) where
  pi : Policy P St DP Obs Act XA
  regularizer : Option (PolicyRegularizer DP RH)
  epsilon : ℚ

/-- The per-transition body of
`objective = jnp.minimum(Adv * ratio, Adv * ratio_clip)` with
`ratio_clip = jnp.clip(ratio, 1 - epsilon, 1 + epsilon)`:
`min (adv * ρ) (adv * clip ρ (1-ε) (1+ε))`. -/
def ppoObjective (adv ρ ε : ℚ) : ℚ :=
  min (adv * ρ) (adv * clip ρ (1 - ε) (1 + ε))

/-- `objective_func(params, state, rng, transition_batch, Adv, epsilon)`:
forward pass on `S` (training mode, first PRNG draw), action preprocessing
(second draw), `log_pi`, ratio `exp(log_pi - logP)`, clipped ratio, and the
elementwise pessimistic objective.  `qexp` is the external numeric
primitive `jnp.exp`. -/
def PPOClip.objective_func {P St DP Obs Act XA RH Ext : Type} (qexp : ℚ → ℚ)
    (self : PPOClip P St DP Obs Act XA RH) (params : P) (state : St) (rng : ℕ)
    (transition_batch : TransitionBatch Obs Act Ext) (Adv : List ℚ) (epsilon : ℚ) :
    List ℚ × (DP × List ℚ × St) :=
  let D := self.pi.apply_func params state (prngKey rng 0) transition_batch.S true
  let X_a := self.pi.action_preprocessor_func params (prngKey rng 1) transition_batch.A
  let log_pi := self.pi.log_proba D.1 X_a
  let ratio := List.zipWith (fun lp lP => qexp (lp - lP)) log_pi transition_batch.logP
  let ratio_clip := ratio.map (fun r => clip r (1 - epsilon) (1 + epsilon))
  let objective := List.zipWith min
    (List.zipWith (fun a r => a * r) Adv ratio)
    (List.zipWith (fun a r => a * r) Adv ratio_clip)
  (objective, (D.1, log_pi, D.2))

/-- `loss_func(params, state, rng, transition_batch, Adv, epsilon, **reg_hparams)`:
bare loss is the negated mean of the objective; when a regularizer is
attached the mean per-transition penalty is added; returns
`(loss, (loss, loss_bare, dist_params, log_pi, state_new))`. -/
def PPOClip.loss_func {P St DP Obs Act XA RH Ext : Type} (qexp : ℚ → ℚ)
    (self : PPOClip P St DP Obs Act XA RH) (params : P) (state : St) (rng : ℕ)
    (transition_batch : TransitionBatch Obs Act Ext) (Adv : List ℚ) (epsilon : ℚ)
    (reg_hparams : RH) : ℚ × (ℚ × ℚ × DP × List ℚ × St) :=
  let O := self.objective_func qexp params state rng transition_batch Adv epsilon
  let loss_bare := - mean O.1
  let loss :=
    match self.regularizer with
    | none => loss_bare
    | some reg => loss_bare + mean (reg.apply_func O.2.1 reg_hparams)
  (loss, (loss, loss_bare, O.2.1, O.2.2.1, O.2.2.2))

/-- The `kl_div_old` metric of `grads_and_metrics_func`:
`jnp.mean(jnp.exp(logP) * (logP - log_pi))`, where `log_pi` is the
auxiliary output returned alongside the gradient — by the gradient-engine
contract (`jax.grad(..., has_aux=True)`) it is exactly the auxiliary output
of `loss_func` at the same inputs. -/
def PPOClip.kl_div_old {P St DP Obs Act XA RH Ext : Type} (qexp : ℚ → ℚ)
    (self : PPOClip P St DP Obs Act XA RH) (params : P) (state : St) (rng : ℕ)
    (transition_batch : TransitionBatch Obs Act Ext) (Adv : List ℚ) (epsilon : ℚ)
    (reg_hparams : RH) : ℚ :=
  let aux := (self.loss_func qexp params state rng transition_batch Adv epsilon reg_hparams).2
  let log_pi := aux.2.2.2.1
  let logP := transition_batch.logP
  mean (List.zipWith (fun lP lp => qexp lP * (lP - lp)) logP log_pi)

/-! ### The `PPOClip.hyperparams` property and dict mutation

Python dicts are embedded as association lists addressed through a heap, so
that object identity (aliasing) is expressible: `getattr(self.regularizer,
'hyperparams', {})` hands back a reference to the regularizer's own dict
(modelled from the spec: the two source files leave the regularizer
abstract; its exposed `hyperparams` mapping is modelled as a dict object it
owns, per the data model of §6), and `hparams['epsilon'] = self.epsilon`
mutates that very object in place before it is returned — no copy is ever
taken. -/

/-- A Python dict with string keys and numeric values. -/
def PyDict : Type := List (String × ℚ)

/-- `d[k] = v`: replace the value at the first occurrence of `k`, else
append the new binding. -/
def dictSet (d : PyDict) (k : String) (v : ℚ) : PyDict :=
  match d with
  | [] => [(k, v)]
  | (k0, v0) :: rest => if k0 = k then (k, v) :: rest else (k0, v0) :: dictSet rest k v

/-- `k in d` for a Python dict. -/
def dictContains (d : PyDict) (k : String) : Bool :=
  d.any (fun kv => kv.1 == k)

/-- A heap of dict objects addressed by `ℕ`. -/
structure PyHeap where
  dicts : ℕ → PyDict

/-- The `PPOClip.hyperparams` property body, for a `PPOClip` whose attached
regularizer exposes its hyperparams as the dict object at address
`regAddr`: `hparams = getattr(self.regularizer, 'hyperparams', {})` binds
the reference, `hparams['epsilon'] = self.epsilon` mutates the referenced
object in the heap, and the same reference is returned. -/
def PPOClip.hyperparams_read (h : PyHeap) (regAddr : ℕ) (epsilon : ℚ) : ℕ × PyHeap :=
  let hparams := regAddr
  let h2 : PyHeap :=
    { dicts := fun a => if a = hparams then dictSet (h.dicts hparams) "epsilon" epsilon
               else h.dicts a }
  (hparams, h2)

/-! ### Concrete instances used to evaluate the scenarios -/

/-- A concrete stand-in for `jnp.exp` realising the ratios of scenario A:
it sends `1/2 ↦ 3/2` and `-1/2 ↦ 1/2` (as `exp` would with
`log_pi = [log 3/2, log 1/2]`, `logP = [0, 0]`). -/
def qexpA : ℚ → ℚ := fun x => if x = 1/2 then 3/2 else if x = -1/2 then 1/2 else 1

/-- A concrete policy whose log-probabilities of the recorded actions are
`[1/2, -1/2]`. -/
def piA : Policy Unit Unit Unit Unit Unit Unit :=
  { apply_func := fun _ _ _ _ _ => ((), ())
    action_preprocessor_func := fun _ _ _ => []
    log_proba := fun _ _ => [1/2, -1/2] }

/-- A concrete policy whose log-probabilities equal the recorded
log-propensities `[1/3]`. -/
def piD : Policy Unit Unit Unit Unit Unit Unit :=
  { apply_func := fun _ _ _ _ _ => ((), ())
    action_preprocessor_func := fun _ _ _ => []
    log_proba := fun _ _ => [1/3] }

/-- The two-transition batch of scenario A (`logP = [0, 0]`). -/
def tbA : TransitionBatch Unit Unit Unit :=
  { S := [(), ()], A := [(), ()], logP := [0, 0], Rn := [], In := [],
    S_next := [], A_next := (), logP_next := () }

/-- A one-transition batch with recorded log-propensity `[1/3]`. -/
def tbD : TransitionBatch Unit Unit Unit :=
  { S := [()], A := [()], logP := [1/3], Rn := [], In := [],
    S_next := [], A_next := (), logP_next := () }

/-- PPO-clip objective of scenario A: `epsilon = 1/5`, no regularizer. -/
def ppoA : PPOClip Unit Unit Unit Unit Unit Unit Unit :=
  { pi := piA, regularizer := none, epsilon := 1/5 }

/-- PPO-clip objective over `piD`, no regularizer. -/
def ppoD : PPOClip Unit Unit Unit Unit Unit Unit Unit :=
  { pi := piD, regularizer := none, epsilon := 1/5 }

/-- A regularizer whose per-transition penalty is identically zero. -/
def regZero : PolicyRegularizer Unit Unit :=
  { apply_func := fun _ _ => [0, 0] }

/-- PPO-clip objective of scenario A with the zero-penalty regularizer
attached. -/
def ppoE : PPOClip Unit Unit Unit Unit Unit Unit Unit :=
  { pi := piA, regularizer := some regZero, epsilon := 1/5 }

/-- The discrete-action q-function of scenario B: three actions with
target-network values `[1, 5, 2]` at `S_next`. -/
def qFuncB : QFunc Unit Unit Unit Unit :=
  { action_space_is_discrete := true
    apply_func_type2 := fun _ _ _ _ _ => ([[1, 5, 2]], ())
    apply_func_type1 := fun _ _ _ _ _ _ => ([0], ()) }

/-- The q-learning object of scenario B, identity value transform. -/
def qlsB : QLearning Unit Unit Unit Unit :=
  { q := qFuncB, q_targ := qFuncB, loss_function := huber, value_transform := (id, id) }

/-- A q-function whose target network reports a huge bootstrap value, to
check that it is annihilated by `In = 0`. -/
def qFuncC : QFunc Unit Unit Unit Unit :=
  { action_space_is_discrete := true
    apply_func_type2 := fun _ _ _ _ _ => ([[1000000]], ())
    apply_func_type1 := fun _ _ _ _ _ _ => ([0], ()) }

/-- A q-learning object with the non-identity transform pair
`(x ↦ 2x, x ↦ x/2)`. -/
def qlsC : QLearning Unit Unit Unit Unit :=
  { q := qFuncC, q_targ := qFuncC, loss_function := huber,
    value_transform := (fun x => x * 2, fun x => x / 2) }

/-- A q-function over a non-discrete (continuous) action space. -/
def qFuncCont : QFunc Unit Unit Unit Unit :=
  { action_space_is_discrete := false
    apply_func_type2 := fun _ _ _ _ _ => ([], ())
    apply_func_type1 := fun _ _ _ _ _ _ => ([], ()) }

/-- A q-function whose type-1 evaluation differs between training and
non-training modes. -/
def qFuncF : QFunc Unit Unit Unit Unit :=
  { action_space_is_discrete := true
    apply_func_type2 := fun _ _ _ _ _ => ([[0]], ())
    apply_func_type1 := fun _ _ _ _ _ train => (if train then [1] else [0], ()) }

/-- A q-learning object over `qFuncF`. -/
def qlsF : QLearning Unit Unit Unit Unit :=
  { q := qFuncF, q_targ := qFuncF, loss_function := huber, value_transform := (id, id) }

/-- A trivial one-transition batch for the q-learning instances. -/
def tbF : TransitionBatch Unit Unit Unit :=
  { S := [()], A := [()], logP := [0], Rn := [1], In := [9/10],
    S_next := [()], A_next := (), logP_next := () }

/-! ### Helper lemmas -/

theorem zipWith3_nil_left {α β γ δ : Type} (f : α → β → γ → δ) (l2 : List β) (l3 : List γ) :
    zipWith3 f [] l2 l3 = [] := by
  cases l2 <;> cases l3 <;> rfl

theorem zipWith3_cons {α β γ δ : Type} (f : α → β → γ → δ) (a : α) (as : List α) (b : β)
    (bs : List β) (c : γ) (cs : List γ) :
    zipWith3 f (a :: as) (b :: bs) (c :: cs) = f a b c :: zipWith3 f as bs cs := rfl

theorem zipWith3_map_third {α β γ δ ε : Type} (f : α → β → δ → ε) (g : γ → δ)
    (l1 : List α) (l2 : List β) (l3 : List γ) :
    zipWith3 f l1 l2 (l3.map g) = zipWith3 (fun a b c => f a b (g c)) l1 l2 l3 := by
  induction l1 generalizing l2 l3 with
  | nil => rw [zipWith3_nil_left, zipWith3_nil_left]
  | cons a as ih =>
    cases l2 with
    | nil => cases l3 <;> rfl
    | cons b bs =>
      cases l3 with
      | nil => rfl
      | cons c cs => rw [List.map_cons, zipWith3_cons, zipWith3_cons, ih bs cs]

theorem zipWith3_zero_mid (f f_inv : ℚ → ℚ) (Rn In_ Q : List ℚ)
    (hzero : ∀ x ∈ In_, x = 0) (h1 : Rn.length = In_.length) (h2 : In_.length = Q.length) :
    zipWith3 (fun rn i q => f (rn + i * f_inv q)) Rn In_ Q = Rn.map f := by
  induction Rn generalizing In_ Q with
  | nil => rw [zipWith3_nil_left]; rfl
  | cons rn rs ih =>
    cases In_ with
    | nil => simp at h1
    | cons i is =>
      cases Q with
      | nil => simp at h2
      | cons q qs =>
        have hi : i = 0 := hzero i (List.mem_cons_self _ _)
        have hz2 : ∀ x ∈ is, x = 0 := fun x hx => hzero x (List.mem_cons_of_mem _ hx)
        rw [zipWith3_cons, List.map_cons, ih is qs hz2 (by simpa using h1) (by simpa using h2),
          hi]
        norm_num

theorem zipWith_min_mul_map (Adv R : List ℚ) (g : ℚ → ℚ) :
    List.zipWith min (List.zipWith (fun a r => a * r) Adv R)
      (List.zipWith (fun a r => a * r) Adv (R.map g))
    = List.zipWith (fun a r => min (a * r) (a * g r)) Adv R := by
  induction Adv generalizing R with
  | nil => simp
  | cons a as ih =>
    cases R with
    | nil => simp
    | cons r rs => simpa using ih rs

theorem zipWith_comp_zip (h e : ℚ → ℚ → ℚ) (A l1 l2 : List ℚ) :
    List.zipWith h A (List.zipWith e l1 l2)
    = List.zipWith (fun a p => h a (e p.1 p.2)) A (l1.zip l2) := by
  induction A generalizing l1 l2 with
  | nil => simp
  | cons a as ih =>
    cases l1 with
    | nil => simp
    | cons x xs =>
      cases l2 with
      | nil => simp
      | cons y ys => simpa using ih xs ys

theorem mean_eq_zero_of_forall_zero (l : List ℚ) (h : ∀ x ∈ l, x = 0) : mean l = 0 := by
  unfold mean
  rw [List.sum_eq_zero h]
  exact zero_div _

theorem sum_kl_self (g : ℚ → ℚ) (l : List ℚ) :
    (List.zipWith (fun a b => g a * (a - b)) l l).sum = 0 := by
  induction l with
  | nil => rfl
  | cons x xs ih => simp [ih]

theorem mean_kl_self (g : ℚ → ℚ) (l : List ℚ) :
    mean (List.zipWith (fun a b => g a * (a - b)) l l) = 0 := by
  unfold mean
  rw [sum_kl_self]
  exact zero_div _

theorem dictContains_dictSet (d : PyDict) (k : String) (v : ℚ) :
    dictContains (dictSet d k v) k = true := by
  induction d with
  | nil => simp [dictSet, dictContains]
  | cons kv rest ih =>
    obtain ⟨k0, v0⟩ := kv
    by_cases hk : k0 = k
    · simp [dictSet, dictContains, hk]
    · simp only [dictSet, if_neg hk]
      simp only [dictContains, List.any_cons] at ih ⊢
      rw [ih]
      simp

/-! ### Claim theorems -/

/-- C2: when the value transform is the identity pair, the q-learning
bootstrapped target equals `Rn + In * max_a Q_targ(S_next, a)` elementwise
(the per-row max over the target network's per-action values at `S_next`). -/
theorem qlearning_target_identity_transform {P St Obs Act : Type}
    (self : QLearning P St Obs Act) (params : P) (state : St) (rng : ℕ)
    (Rn In_ : List ℚ) (S_next : List Obs)
    (h : self.value_transform = (id, id)) :
    self.target params state rng Rn In_ S_next
      = zipWith3 (fun rn i row => rn + i * amax row) Rn In_
          ((self.q_targ.apply_func_type2 params state rng S_next false).1) := by
  have key := zipWith3_map_third (fun (rn i : ℚ) (q : ℚ) => rn + i * q) amax Rn In_
    ((self.q_targ.apply_func_type2 params state rng S_next false).1)
  unfold QLearning.target
  rw [h]
  exact key

/-- Scenario B, via C2: `Q_targ(S_next) = [1, 5, 2]`, `Rn = 1`, `In = 9/10`,
identity transform, gives `G = 1 + (9/10)*5 = 11/2`. -/
theorem qlearning_target_identity_transform_witness :
    qlsB.value_transform = (id, id) ∧ qlsB.target () () 0 [1] [9/10] [()] = [11/2] := by
  refine ⟨rfl, ?_⟩
  rw [qlearning_target_identity_transform qlsB () () 0 [1] [9/10] [()] rfl]
  norm_num [qlsB, qFuncB, zipWith3, amax, List.foldl]

/-- C3: `td_error_func` returns `G - Q` elementwise, where `G` is the
auxiliary `G` of `loss_func` at the very same inputs — both are the same
target construction evaluated with the same first PRNG draw. -/
theorem td_error_consistent_with_loss {P St Obs Act Ext : Type}
    (self : QLearning P St Obs Act) (params target_params : P) (state : St) (rng : ℕ)
    (tb : TransitionBatch Obs Act Ext) :
    self.td_error_func params target_params state rng tb
      = List.zipWith (fun g q => g - q)
          ((self.loss_func params target_params state rng tb).2.2.1)
          ((self.q.apply_func_type1 params state (prngKey rng 1) tb.S tb.A false).1)
    ∧ (self.loss_func params target_params state rng tb).2.2.1
      = self.target target_params state (prngKey rng 0) tb.Rn tb.In tb.S_next :=
  ⟨rfl, rfl⟩

/-- C4: when every entry of `In` is `0` (terminal n-step window), the
q-learning target is `f(Rn)` elementwise, whatever the bootstrap values —
the bootstrap term is annihilated by the multiplication, with no branching
and no failure (the embedding is a total function). -/
theorem qlearning_target_terminal {P St Obs Act : Type}
    (self : QLearning P St Obs Act) (params : P) (state : St) (rng : ℕ)
    (Rn In_ : List ℚ) (S_next : List Obs) (f f_inv : ℚ → ℚ)
    (hvt : self.value_transform = (f, f_inv))
    (hzero : ∀ x ∈ In_, x = 0)
    (h1 : Rn.length = In_.length)
    (h2 : In_.length
        = ((self.q_targ.apply_func_type2 params state rng S_next false).1).length) :
    self.target params state rng Rn In_ S_next = Rn.map f := by
  have key := zipWith3_zero_mid f f_inv Rn In_
    (((self.q_targ.apply_func_type2 params state rng S_next false).1).map amax)
    hzero h1 (by simpa using h2)
  unfold QLearning.target
  rw [hvt]
  exact key

/-- C4 at a concrete terminal transition: `Rn = [3]`, `In = [0]`, a huge
bootstrap value `1000000` and transform `x ↦ 2x`: the target is `[6]`. -/
theorem qlearning_target_terminal_witness :
    qlsC.target () () 0 [3] [0] [()] = [6] := by
  rw [qlearning_target_terminal qlsC () () 0 [3] [0] [()]
    (fun x => x * 2) (fun x => x / 2) rfl (by decide) rfl rfl]
  norm_num

/-- C6: constructing `QLearning` against a non-discrete action space fails
with the `NotImplementedError` configuration error; against a discrete one
it succeeds.  The constructor takes no transition batch, so the decision is
made before any batch is processed. -/
theorem qlearning_init_discrete_check :
    (∀ (P St Obs Act : Type) (q : QFunc P St Obs Act)
        (q_targ : Option (QFunc P St Obs Act))
        (lf : Option (List ℚ → List ℚ → ℚ)) (vt : Option ((ℚ → ℚ) × (ℚ → ℚ))),
      q.action_space_is_discrete = false →
        QLearning.init q q_targ lf vt = Except.error
          "NotImplementedError: QLearning class is only implemented for discrete actions spaces")
    ∧ (∀ (P St Obs Act : Type) (q : QFunc P St Obs Act)
        (q_targ : Option (QFunc P St Obs Act))
        (lf : Option (List ℚ → List ℚ → ℚ)) (vt : Option ((ℚ → ℚ) × (ℚ → ℚ))),
      q.action_space_is_discrete = true →
        ∃ c, QLearning.init q q_targ lf vt = Except.ok c) := by
  constructor
  · intro P St Obs Act q q_targ lf vt h
    simp [QLearning.init, h]
  · intro P St Obs Act q q_targ lf vt h
    exact ⟨{ q := q, q_targ := q_targ.getD q, loss_function := lf.getD huber,
             value_transform := vt.getD (id, id) }, by simp [QLearning.init, h]⟩

/-- C6 at concrete q-functions: construction fails on the continuous-action
one and succeeds on the discrete-action one. -/
theorem qlearning_init_discrete_check_witness :
    QLearning.init qFuncCont (none : Option (QFunc Unit Unit Unit Unit)) none none
      = Except.error
          "NotImplementedError: QLearning class is only implemented for discrete actions spaces"
    ∧ ∃ c, QLearning.init qFuncB (none : Option (QFunc Unit Unit Unit Unit)) none none
      = Except.ok c :=
  ⟨qlearning_init_discrete_check.1 Unit Unit Unit Unit qFuncCont none none none rfl,
   qlearning_init_discrete_check.2 Unit Unit Unit Unit qFuncB none none none rfl⟩

/-- C9: `td_error_func` subtracts the non-training-mode evaluation of the
main q-function (same second PRNG draw as the loss path), so whenever the
approximator distinguishes the two modes, the subtracted `Q` differs from
the auxiliary `Q` of `loss_func`, even though the `G` path is identical. -/
theorem td_error_uses_eval_mode {P St Obs Act Ext : Type}
    (self : QLearning P St Obs Act) (params target_params : P) (state : St) (rng : ℕ)
    (tb : TransitionBatch Obs Act Ext)
    (hdiff : (self.q.apply_func_type1 params state (prngKey rng 1) tb.S tb.A false).1
           ≠ (self.q.apply_func_type1 params state (prngKey rng 1) tb.S tb.A true).1) :
    self.td_error_func params target_params state rng tb
      = List.zipWith (fun g q => g - q)
          (self.target target_params state (prngKey rng 0) tb.Rn tb.In tb.S_next)
          ((self.q.apply_func_type1 params state (prngKey rng 1) tb.S tb.A false).1)
    ∧ (self.q.apply_func_type1 params state (prngKey rng 1) tb.S tb.A false).1
      ≠ (self.loss_func params target_params state rng tb).2.2.2.1 :=
  ⟨rfl, hdiff⟩

/-- C9 at a q-function returning `[1]` in training mode and `[0]`
otherwise: the `Q` subtracted by `td_error_func` differs from the `Q` used
inside `loss_func`. -/
theorem td_error_uses_eval_mode_witness :
    (qlsF.q.apply_func_type1 () () (prngKey 0 1) tbF.S tbF.A false).1
      ≠ (qlsF.loss_func () () () 0 tbF).2.2.2.1 :=
  (td_error_uses_eval_mode qlsF () () () 0 tbF (by decide)).2

/-- C10: reading the `PPOClip.hyperparams` property returns the
regularizer's own dict (the same heap address, no copy) after setting the
key `"epsilon"` in it in place, so the regularizer's stored mapping itself
contains `"epsilon"` after the read. -/
theorem ppoClip_hyperparams_mutates_regularizer (h : PyHeap) (regAddr : ℕ) (ε : ℚ) :
    (PPOClip.hyperparams_read h regAddr ε).1 = regAddr
    ∧ (PPOClip.hyperparams_read h regAddr ε).2.dicts regAddr
        = dictSet (h.dicts regAddr) "epsilon" ε
    ∧ dictContains ((PPOClip.hyperparams_read h regAddr ε).2.dicts regAddr) "epsilon"
        = true := by
  refine ⟨rfl, ?_, ?_⟩
  · simp [PPOClip.hyperparams_read]
  · simp [PPOClip.hyperparams_read, dictContains_dictSet]

/-- C1: the PPO-clip bare loss is the negated batch mean of the
per-transition objective `min(Adv*ρ, Adv*clip(ρ, 1-ε, 1+ε))` with
`ρ = exp(log_pi - logP)`; on scenario A (`Adv = [1,-1]`, `ρ = [3/2, 1/2]`,
`ε = 1/5`) the objective is `[6/5, -4/5]` and the bare loss `-1/5`. -/
theorem ppoClip_loss_bare_spec :
    (∀ (P St DP Obs Act XA RH Ext : Type) (qexp : ℚ → ℚ)
        (self : PPOClip P St DP Obs Act XA RH) (params : P) (state : St) (rng : ℕ)
        (tb : TransitionBatch Obs Act Ext) (Adv : List ℚ) (ε : ℚ) (rh : RH),
      (self.loss_func qexp params state rng tb Adv ε rh).2.2.1
        = - mean (List.zipWith
            (fun adv p => min (adv * qexp (p.1 - p.2))
              (adv * clip (qexp (p.1 - p.2)) (1 - ε) (1 + ε)))
            Adv
            ((self.pi.log_proba (self.pi.apply_func params state (prngKey rng 0) tb.S true).1
                (self.pi.action_preprocessor_func params (prngKey rng 1) tb.A)).zip tb.logP)))
    ∧ (PPOClip.objective_func qexpA ppoA () () 0 tbA [1, -1] (1/5)).1 = [6/5, -4/5]
    ∧ (PPOClip.loss_func qexpA ppoA () () 0 tbA [1, -1] (1/5) ()).2.2.1 = -(1/5) := by
  refine ⟨?_, ?_, ?_⟩
  · intro P St DP Obs Act XA RH Ext qexp self params state rng tb Adv ε rh
    have hobj : (self.objective_func qexp params state rng tb Adv ε).1
        = List.zipWith
            (fun adv p => min (adv * qexp (p.1 - p.2))
              (adv * clip (qexp (p.1 - p.2)) (1 - ε) (1 + ε)))
            Adv
            ((self.pi.log_proba (self.pi.apply_func params state (prngKey rng 0) tb.S true).1
                (self.pi.action_preprocessor_func params (prngKey rng 1) tb.A)).zip tb.logP) := by
      simp only [PPOClip.objective_func]
      rw [zipWith_min_mul_map, zipWith_comp_zip]
    have hbare : (self.loss_func qexp params state rng tb Adv ε rh).2.2.1
        = - mean (self.objective_func qexp params state rng tb Adv ε).1 := rfl
    rw [hbare, hobj]
  · norm_num [PPOClip.objective_func, ppoA, piA, tbA, qexpA, clip, prngKey,
      min_def, max_def]
  · norm_num [PPOClip.loss_func, PPOClip.objective_func, ppoA, piA, tbA, qexpA, clip,
      prngKey, mean, min_def, max_def]

/-- C5: for `ε > 0` the clipped per-transition objective is strictly below
the bare objective `adv * ρ` exactly in the off-clip direction (`ρ > 1+ε`
for positive advantage, `ρ < 1-ε` for negative advantage) and equal to it
otherwise. -/
theorem ppo_objective_pessimistic_bound (ε adv ρ : ℚ) (hε : 0 < ε) :
    (0 < adv →
      (1 + ε < ρ → ppoObjective adv ρ ε < adv * ρ)
      ∧ (ρ ≤ 1 + ε → ppoObjective adv ρ ε = adv * ρ))
    ∧ (adv < 0 →
      (ρ < 1 - ε → ppoObjective adv ρ ε < adv * ρ)
      ∧ (1 - ε ≤ ρ → ppoObjective adv ρ ε = adv * ρ)) := by
  unfold ppoObjective clip
  constructor
  · intro hadv
    constructor
    · intro hρ
      rw [max_eq_left (by linarith), min_eq_right hρ.le,
        min_eq_right (mul_le_mul_of_nonneg_left hρ.le hadv.le)]
      exact mul_lt_mul_of_pos_left hρ hadv
    · intro hρ
      have hc : ρ ≤ min (max ρ (1 - ε)) (1 + ε) := le_min (le_max_left _ _) hρ
      exact min_eq_left (mul_le_mul_of_nonneg_left hc hadv.le)
  · intro hadv
    constructor
    · intro hρ
      rw [max_eq_right hρ.le, min_eq_left (show (1:ℚ) - ε ≤ 1 + ε by linarith),
        min_eq_right (mul_le_mul_of_nonpos_left hρ.le hadv.le)]
      exact mul_lt_mul_of_neg_left hρ hadv
    · intro hρ
      have hc : min (max ρ (1 - ε)) (1 + ε) ≤ ρ := by
        rw [max_eq_left hρ]
        exact min_le_left _ _
      exact min_eq_left (mul_le_mul_of_nonpos_left hc hadv.le)

/-- C5 at `ε = 1/5`: strict drop for `adv = 1, ρ = 3/2 > 6/5` and for
`adv = -1, ρ = 1/2 < 4/5`. -/
theorem ppo_objective_pessimistic_bound_witness :
    ppoObjective 1 (3/2) (1/5) < 1 * (3/2)
    ∧ ppoObjective (-1) (1/2) (1/5) < -1 * (1/2) :=
  ⟨((ppo_objective_pessimistic_bound (1/5) 1 (3/2) (by norm_num)).1
      (by norm_num)).1 (by norm_num),
   ((ppo_objective_pessimistic_bound (1/5) (-1) (1/2) (by norm_num)).2
      (by norm_num)).1 (by norm_num)⟩

/-- C7: the `kl_div_old` metric equals
`mean(exp(logP) * (logP - log_pi))` over the batch, and vanishes whenever
the current policy's log-probabilities coincide pointwise with the recorded
log-propensities. -/
theorem ppoClip_kl_div_old_spec :
    (∀ (P St DP Obs Act XA RH Ext : Type) (qexp : ℚ → ℚ)
        (self : PPOClip P St DP Obs Act XA RH) (params : P) (state : St) (rng : ℕ)
        (tb : TransitionBatch Obs Act Ext) (Adv : List ℚ) (ε : ℚ) (rh : RH),
      self.kl_div_old qexp params state rng tb Adv ε rh
        = mean (List.zipWith (fun lP lp => qexp lP * (lP - lp)) tb.logP
            (self.pi.log_proba (self.pi.apply_func params state (prngKey rng 0) tb.S true).1
              (self.pi.action_preprocessor_func params (prngKey rng 1) tb.A))))
    ∧ (∀ (P St DP Obs Act XA RH Ext : Type) (qexp : ℚ → ℚ)
        (self : PPOClip P St DP Obs Act XA RH) (params : P) (state : St) (rng : ℕ)
        (tb : TransitionBatch Obs Act Ext) (Adv : List ℚ) (ε : ℚ) (rh : RH),
      self.pi.log_proba (self.pi.apply_func params state (prngKey rng 0) tb.S true).1
          (self.pi.action_preprocessor_func params (prngKey rng 1) tb.A) = tb.logP →
        self.kl_div_old qexp params state rng tb Adv ε rh = 0) := by
  constructor
  · intro P St DP Obs Act XA RH Ext qexp self params state rng tb Adv ε rh
    rfl
  · intro P St DP Obs Act XA RH Ext qexp self params state rng tb Adv ε rh h
    have e : self.kl_div_old qexp params state rng tb Adv ε rh
        = mean (List.zipWith (fun lP lp => qexp lP * (lP - lp)) tb.logP
            (self.pi.log_proba (self.pi.apply_func params state (prngKey rng 0) tb.S true).1
              (self.pi.action_preprocessor_func params (prngKey rng 1) tb.A))) := rfl
    rw [e, h]
    exact mean_kl_self qexp tb.logP

/-- C7 at a policy whose log-probabilities equal the recorded
log-propensities `[1/3]`: the metric is `0`. -/
theorem ppoClip_kl_div_old_spec_witness :
    ppoD.kl_div_old qexpA () () 0 tbD [] (1/5) () = 0 :=
  ppoClip_kl_div_old_spec.2 Unit Unit Unit Unit Unit Unit Unit Unit qexpA ppoD
    () () 0 tbD [] (1/5) () rfl

/-- C8: with no regularizer the final PPO-clip loss is exactly the bare
loss, and with a regularizer whose per-transition penalty is identically
zero it is again exactly the bare loss (the penalty enters as the mean of
the penalty array). -/
theorem ppoClip_loss_regularizer_zero :
    (∀ (P St DP Obs Act XA RH Ext : Type) (qexp : ℚ → ℚ)
        (self : PPOClip P St DP Obs Act XA RH) (params : P) (state : St) (rng : ℕ)
        (tb : TransitionBatch Obs Act Ext) (Adv : List ℚ) (ε : ℚ) (rh : RH),
      self.regularizer = none →
        (self.loss_func qexp params state rng tb Adv ε rh).1
          = (self.loss_func qexp params state rng tb Adv ε rh).2.2.1)
    ∧ (∀ (P St DP Obs Act XA RH Ext : Type) (qexp : ℚ → ℚ)
        (self : PPOClip P St DP Obs Act XA RH) (params : P) (state : St) (rng : ℕ)
        (tb : TransitionBatch Obs Act Ext) (Adv : List ℚ) (ε : ℚ) (rh : RH)
        (reg : PolicyRegularizer DP RH),
      self.regularizer = some reg →
      (∀ (dp : DP) (rh0 : RH), ∀ x ∈ reg.apply_func dp rh0, x = 0) →
        (self.loss_func qexp params state rng tb Adv ε rh).1
          = (self.loss_func qexp params state rng tb Adv ε rh).2.2.1) := by
  constructor
  · intro P St DP Obs Act XA RH Ext qexp self params state rng tb Adv ε rh h
    simp [PPOClip.loss_func, h]
  · intro P St DP Obs Act XA RH Ext qexp self params state rng tb Adv ε rh reg h hz
    have hm : mean (reg.apply_func
        (self.objective_func qexp params state rng tb Adv ε).2.1 rh) = 0 :=
      mean_eq_zero_of_forall_zero _ (hz _ _)
    simp [PPOClip.loss_func, h, hm]

/-- C8 at scenario A inputs: with no regularizer, and with the attached
zero-penalty regularizer, the final loss equals the bare loss. -/
theorem ppoClip_loss_regularizer_zero_witness :
    (ppoA.loss_func qexpA () () 0 tbA [1, -1] (1/5) ()).1
      = (ppoA.loss_func qexpA () () 0 tbA [1, -1] (1/5) ()).2.2.1
    ∧ (ppoE.loss_func qexpA () () 0 tbA [1, -1] (1/5) ()).1
      = (ppoE.loss_func qexpA () () 0 tbA [1, -1] (1/5) ()).2.2.1 :=
  ⟨ppoClip_loss_regularizer_zero.1 Unit Unit Unit Unit Unit Unit Unit Unit qexpA ppoA
      () () 0 tbA [1, -1] (1/5) () rfl,
   ppoClip_loss_regularizer_zero.2 Unit Unit Unit Unit Unit Unit Unit Unit qexpA ppoE
      () () 0 tbA [1, -1] (1/5) () regZero rfl
      (by intro dp rh0 x hx; simp [regZero] at hx; exact hx)⟩

end Coax
